import Mathlib

/-!
Verification of the Crypto-Scraper repository (python sources under `src/`).

The development shallowly embeds the parts of the code relevant to the
frozen claims:

* `web_scraper.py` — `ConferenceScraper.validate_scraped_data`,
  `ConferenceScraper.search_conference_info` (response handling) and
  `ConferenceScraper.scrape_batch`;
* `csv_processor.py` / `sheets_processor.py` —
  `get_incomplete_conferences` (identical in both files) and the CSV
  variant of `update_conference_data`;
* `scheduler.py` — `ConferenceScheduler.run_scraping_job` (the
  reconciliation cycle, CSV storage mode) and the recurring loop of
  `ConferenceScheduler.run_scheduler`.

Modelling conventions:

* Python strings are Lean `String`s; `str.strip()` is `pstrip`, which
  drops the ASCII whitespace characters Python strips from both ends
  (the full Unicode whitespace set of Python is not needed by any claim).
* Python dicts (field maps) are association lists `List (String × String)`
  looked up with first-match semantics (`lookupField`); Python dicts have
  unique keys, so first-match lookup agrees with dict lookup.
* A pandas cell is `Cell`: `Cell.nan` for a missing value (`pd.isna`
  true) and `Cell.val s` for a value whose `str()` rendering is `s`.
* Wall-clock timestamps are `Nat` parameters; sleeps and log lines are
  I/O effects with no data flow and are not modelled.
-/

/-- The ASCII whitespace characters stripped by Python `str.strip()`. -/
def isPySpace (c : Char) : Bool :=
  c = ' ' || c = '\t' || c = '\n' || c = '\r' || c = '\x0b' || c = '\x0c'

/-- Strip `isPySpace` characters from both ends of a character list. -/
def stripChars (l : List Char) : List Char :=
  ((l.dropWhile isPySpace).reverse.dropWhile isPySpace).reverse

/-- Embedding of Python `s.strip()`. -/
def pstrip (s : String) : String :=
  ⟨stripChars s.data⟩

/-- Embedding of Python `c in s` for a single character `c`
(`'/' in date_value` in `validate_scraped_data`). -/
def charIn (c : Char) (s : String) : Bool :=
  s.data.contains c

/-- Embedding of Python `len(s)` (number of characters). -/
def pyLen (s : String) : Nat :=
  s.data.length

/-- A Python dict of string-rendered field values, as an association
list with first-match lookup. -/
abbrev FieldMap : Type :=
  List (String × String)

/-- Embedding of Python `data[k]` / `k in data` for a dict: the first
value bound to `k`, if any. -/
def lookupField (data : FieldMap) (k : String) : Option String :=
  match data with
  | [] => none
  | (k₀, v₀) :: rest => if k₀ = k then some v₀ else lookupField rest k

/-- `Config.FIELDS_TO_SCRAPE` from `config.py`. -/
def FIELDS_TO_SCRAPE : List String :=
  ["Start Date", "End Date", "Location", "Speaker", "Attendees", "Status"]

/-- The `Start Date` / `End Date` rule of
`ConferenceScraper.validate_scraped_data` (web_scraper.py:176-181):
the trimmed value is kept iff it contains `/` and has length at most 5. -/
def dateEntryOpt (data : FieldMap) (k : String) : Option String :=
  match lookupField data k with
  | none => none
  | some v =>
      let t := pstrip v
      if charIn '/' t && pyLen t ≤ 5 then some t else none

/-- The `Location` / `Speaker` / `Attendees` / `Status` rule of
`ConferenceScraper.validate_scraped_data` (web_scraper.py:183-205):
the trimmed value is kept iff it is non-empty. -/
def textEntryOpt (data : FieldMap) (k : String) : Option String :=
  match lookupField data k with
  | none => none
  | some v =>
      let t := pstrip v
      if 0 < pyLen t then some t else none

/-- Turn one optional validated value into the dict entries it
contributes. -/
def optEntry (k : String) : Option String → FieldMap
  | none => []
  | some t => [(k, t)]

/-- Embedding of `ConferenceScraper.validate_scraped_data`
(web_scraper.py:169-207): builds `validated_data` by inserting, in the
source's order, each of the six recognised fields that passes its rule. -/
def validate_scraped_data (data : FieldMap) : FieldMap :=
  optEntry "Start Date" (dateEntryOpt data "Start Date") ++
  optEntry "End Date" (dateEntryOpt data "End Date") ++
  optEntry "Location" (textEntryOpt data "Location") ++
  optEntry "Speaker" (textEntryOpt data "Speaker") ++
  optEntry "Attendees" (textEntryOpt data "Attendees") ++
  optEntry "Status" (textEntryOpt data "Status")

/-! ### `ConferenceScraper.search_conference_info` — oracle response handling

The OpenAI call itself is external; the embedding models the handling of
the response text (web_scraper.py:93-123).  `json.loads` is a library
call, so a response carries both its raw text and the parse result that
`json.loads` produces on the code-fence-stripped text: `Except.error`
models a `JSONDecodeError`, `Except.ok` the parsed object in insertion
order.  A parsed JSON value is `JVal.jnull` for `null`, or `JVal.jval s`
where `s` is the Python `str()` rendering of the non-null value. -/

inductive JVal : Type where
  | jnull : JVal
  | jval : String → JVal
deriving DecidableEq

/-- Embedding of Python `s.lower()` (ASCII case folding, which is all
the comparison against the literal `'false'` needs). -/
def pyLower (s : String) : String :=
  ⟨s.data.map Char.toLower⟩

/-- One oracle response: the raw `response.output_text` and the result of
`json.loads` on the stripped, fence-free text. -/
structure OracleResponse : Type where
  raw : String
  parsed : Except Unit (List (String × JVal))

/-- The three outcomes of response handling, following the spec's
`OracleResult` taxonomy: a non-empty validated mapping (`found`), the
definitive "nothing found" signal (`notFound`), and a JSON parse failure
(`errorParse`, logged with `logger.error` in the source, vs.
`logger.info` for `notFound`). -/
inductive SearchOutcome : Type where
  | found : List (String × String) → SearchOutcome
  | notFound : SearchOutcome
  | errorParse : SearchOutcome
deriving DecidableEq

/-- The null/blank filter of web_scraper.py:108-111: keep `(key, value)`
iff `value is not None and str(value).strip() != ''`; the kept value is
the original rendering, not the stripped one. -/
def filterResponse (fields : List (String × JVal)) : List (String × String) :=
  fields.filterMap fun kv =>
    match kv.2 with
    | JVal.jnull => none
    | JVal.jval s => if pstrip s = "" then none else some (kv.1, s)

/-- Embedding of the response handling of
`ConferenceScraper.search_conference_info` (web_scraper.py:93-123):
`response_text.strip().lower() == 'false'` yields the not-found signal;
otherwise the JSON parse result is filtered, an empty remainder is
not-found, and a parse failure is the parse-error outcome. -/
def search_conference_info (resp : OracleResponse) : SearchOutcome :=
  let response_text := pstrip resp.raw
  if pyLower response_text = "false" then SearchOutcome.notFound
  else
    match resp.parsed with
    | Except.error _ => SearchOutcome.errorParse
    | Except.ok fields =>
        let filtered := filterResponse fields
        if filtered.isEmpty then SearchOutcome.notFound
        else SearchOutcome.found filtered

/-- The value `search_conference_info` hands back to its caller
(`Union[Dict, bool]` in the source): the mapping on `found`, the Python
literal `False` (here `none`) on both `notFound` and `errorParse` — the
parse failure is logged and returned as `False`, never raised. -/
def searchCallerValue : SearchOutcome → Option (List (String × String))
  | SearchOutcome.found m => some m
  | SearchOutcome.notFound => none
  | SearchOutcome.errorParse => none

/-! ### The table model and `get_incomplete_conferences`

`get_incomplete_conferences` is textually identical in
`csv_processor.py:100-126` and `sheets_processor.py:269-293`.  A table is
a list of column names plus rows; a row is an association list from
column name to `Cell`. -/

inductive Cell : Type where
  | nan : Cell
  | val : String → Cell
deriving DecidableEq

/-- A pandas row, as an association list from column name to cell. -/
abbrev Row : Type :=
  List (String × Cell)

/-- Embedding of `row[f]` for a dataframe column `f` (a well-formed
dataframe has every column in every row; a missing entry reads as NaN). -/
def getCellD (row : Row) (f : String) : Cell :=
  match row with
  | [] => Cell.nan
  | (k, c) :: rest => if k = f then c else getCellD rest f

/-- Embedding of `row.get(f, default)` (pandas `Series.get`). -/
def rowGetD (row : Row) (f : String) (dflt : Cell) : Cell :=
  match row with
  | [] => dflt
  | (k, c) :: rest => if k = f then c else rowGetD rest f dflt

/-- The per-cell missing test of csv_processor.py:111 /
sheets_processor.py:278: `pd.isna(row[field]) or str(row[field]).strip() == ""`. -/
def cellMissing (c : Cell) : Bool :=
  match c with
  | Cell.nan => true
  | Cell.val s => pstrip s == ""

/-- A dataframe: header columns and data rows. -/
structure Table : Type where
  cols : List String
  rows : List Row
deriving DecidableEq

/-- The fields of `required` that count as missing for `row`: the inner
loop of `get_incomplete_conferences` — a field is checked only if it is
among the table's columns (`if field in df.columns`). -/
def analyze_missing (required cols : List String) (row : Row) : List String :=
  required.filter fun f => cols.contains f && cellMissing (getCellD row f)

/-- The work-item dict built by `get_incomplete_conferences`
(csv_processor.py:115-122). -/
structure ConfInfo : Type where
  index : Nat
  conference_name : Cell
  category : Cell
  region : Cell
  missing_fields : List String
  existing_data : Row
deriving DecidableEq

/-- Build the work-item dict for one incomplete row. -/
def mkConfInfo (idx : Nat) (row : Row) (missing : List String) : ConfInfo :=
  ⟨idx, getCellD row "Conference Name", rowGetD row "Category" (Cell.val ""),
   rowGetD row "Region" (Cell.val ""), missing, row⟩

/-- The row loop of `get_incomplete_conferences`, carrying the running
row index. -/
def giGo (cols : List String) : Nat → List Row → List ConfInfo
  | _, [] => []
  | idx, row :: rest =>
      let missing := analyze_missing FIELDS_TO_SCRAPE cols row
      if missing.isEmpty then giGo cols (idx + 1) rest
      else mkConfInfo idx row missing :: giGo cols (idx + 1) rest

/-- Embedding of `get_incomplete_conferences` (csv_processor.py:100-126,
sheets_processor.py:269-293): scan the rows in order, collecting a work
item for every row with at least one missing required field. -/
def get_incomplete_conferences (t : Table) : List ConfInfo :=
  giGo t.cols 0 t.rows

/-- The one-row table used to refute C1's blank-name clause: the row's
`Conference Name` is blank and its `Status` is blank. -/
def rowBlankName : Row :=
  [("Conference Name", Cell.val ""), ("Status", Cell.val "")]

/-- Table containing only `rowBlankName`. -/
def tBlankName : Table :=
  ⟨["Conference Name", "Status"], [rowBlankName]⟩

/-! ### `ConferenceScraper.scrape_batch`

The outer loop `for i in range(0, len(conferences), batch_size)` slices
the input into consecutive chunks `conferences[i:i+batch_size]`; the
inner loop appends one result dict per conference, catching any per-item
exception and recording it with `scraped_data = False` and the error
message.  With `batch_size == 0`, Python's `range` raises
`ValueError: range() arg 3 must not be zero` before any item is
processed; the embedding returns `none` for that case.  The per-item
call is `search_conference_info`, whose network call may raise inside
the item handler; the item handler is therefore a parameter
`sf : ConfInfo → Except String SearchOutcome` where `Except.error e`
models an exception with message `e` caught by the inner `try`. -/

/-- One entry of the `results` list of `scrape_batch`
(web_scraper.py:144-148 and 155-160); the wall-clock `timestamp` field
carries no data flow and is omitted. -/
structure ScrapeResult : Type where
  conference_info : ConfInfo
  scraped_data : Option (List (String × String))
  error : Option String
deriving DecidableEq

/-- Processing of a single conference inside the batch loop
(web_scraper.py:140-160): on a normal return the caller value of the
search outcome is recorded; on a raised exception the item is recorded
with the `False` marker and the error message, and the loop continues. -/
def processItem (sf : ConfInfo → Except String SearchOutcome) (c : ConfInfo) :
    ScrapeResult :=
  match sf c with
  | Except.ok o => ⟨c, searchCallerValue o, none⟩
  | Except.error e => ⟨c, none, some e⟩

/-- Consecutive chunks `l[i:i+bs]` for `i = 0, bs, 2*bs, ...`, with fuel
for structural termination (fuel `l.length` is always enough when
`bs ≠ 0`, since every step consumes at least one element). -/
def chunkedAux {α : Type} (bs : Nat) : Nat → List α → List (List α)
  | _, [] => []
  | 0, _ :: _ => []
  | fuel + 1, a :: rest => (a :: rest).take bs :: chunkedAux bs fuel ((a :: rest).drop bs)

/-- Embedding of `ConferenceScraper.scrape_batch` (web_scraper.py:129-167):
`none` models the `ValueError` raised by `range(0, n, 0)`; otherwise the
chunks are processed in order, one result per conference. -/
def scrape_batch (sf : ConfInfo → Except String SearchOutcome)
    (conferences : List ConfInfo) (batch_size : Nat) : Option (List ScrapeResult) :=
  if batch_size = 0 then none
  else some (((chunkedAux batch_size conferences.length conferences).map
      fun batch => batch.map (processItem sf)).flatten)

/-- A minimal concrete work item for witnesses. -/
def sampleConf (n : String) : ConfInfo :=
  ⟨0, Cell.val n, Cell.val "", Cell.val "", ["Status"], []⟩

/-- A concrete item handler: succeeds on conference `A`, raises on
everything else. -/
def sfSample : ConfInfo → Except String SearchOutcome := fun c =>
  if c.conference_name = Cell.val "A" then
    Except.ok (SearchOutcome.found [("Status", "Confirmed")])
  else Except.error "boom"

/-! ### `ConferenceScheduler.run_scraping_job` — one reconciliation cycle

Embedding of scheduler.py:43-116 in CSV storage mode
(`Config.USE_GOOGLE_SHEETS == false`), where the store write of the
`Persisting` stage is the single `save_csv` call of scheduler.py:101.
External effects are inputs: `apiOk` is the result of
`test_api_connection()`, `sf` the per-item oracle behaviour, `now` the
wall clock, `table` the result of `load_2026_data()`.  The cycle returns
the new statistics, the working table, the number of `Persisting`-stage
store writes, and this cycle's `updates_made` counter. -/

/-- Set one field of a row (`df.at[index, field] = value` touches exactly
one column of one row). -/
def setField (row : Row) (f : String) (c : Cell) : Row :=
  match row with
  | [] => [(f, c)]
  | (k, v) :: rest => if k = f then (f, c) :: rest else (k, v) :: setField rest f c

/-- Set one cell of the table at row position `index`. -/
def tableSetAt (t : Table) (index : Nat) (f : String) (c : Cell) : Table :=
  match t.rows[index]? with
  | none => t
  | some row => ⟨t.cols, t.rows.set index (setField row f c)⟩

/-- Embedding of the CSV `update_conference_data`
(csv_processor.py:128-142): each update whose field is among the table's
columns is written into the row at `index`. -/
def update_conference_data (t : Table) (index : Nat)
    (field_updates : List (String × String)) : Table :=
  field_updates.foldl
    (fun acc fv =>
      if acc.cols.contains fv.1 then tableSetAt acc index fv.1 (Cell.val fv.2) else acc)
    t

/-- The result-processing loop of scheduler.py:79-93: for every result
with a truthy `scraped_data` dict, validate it; if the validated map is
non-empty, update the working table at the item's index and increment
`updates_made`. -/
def mergeResults (table : Table) (results : List ScrapeResult) : Table × Nat :=
  results.foldl
    (fun acc r =>
      match r.scraped_data with
      | none => acc
      | some m =>
          if m.isEmpty then acc
          else
            let validated := validate_scraped_data m
            if validated.isEmpty then acc
            else (update_conference_data acc.1 r.conference_info.index validated, acc.2 + 1))
    (table, 0)

/-- The scheduler's run statistics (scheduler.py:28-30). -/
structure RunStats : Type where
  last_run : Option Nat
  total_conferences_processed : Nat
  total_updates_made : Nat
deriving DecidableEq

/-- Observable outcome of one cycle: final statistics, final working
table, number of `Persisting`-stage store writes, and this cycle's
`updates_made`. -/
structure CycleResult : Type where
  stats : RunStats
  table : Table
  saveWrites : Nat
  updatesMade : Nat
deriving DecidableEq

/-- Embedding of `ConferenceScheduler.run_scraping_job`
(scheduler.py:43-116): failed connectivity check, empty table and empty
work list each return early, leaving statistics untouched and writing
nothing; otherwise the batch is scraped (`batch_size=3`, so
`scrape_batch` always yields a list and `getD` never takes its default),
results are merged, the table is saved once iff `updates_made > 0`, and
the statistics are updated. -/
def run_scraping_job (apiOk : Bool) (sf : ConfInfo → Except String SearchOutcome)
    (table : Table) (now : Nat) (stats : RunStats) : CycleResult :=
  if !apiOk then ⟨stats, table, 0, 0⟩
  else if table.rows.isEmpty then ⟨stats, table, 0, 0⟩
  else
    let incomplete := get_incomplete_conferences table
    if incomplete.isEmpty then ⟨stats, table, 0, 0⟩
    else
      let results := (scrape_batch sf incomplete 3).getD []
      let merged := mergeResults table results
      ⟨⟨some now, stats.total_conferences_processed + incomplete.length,
          stats.total_updates_made + merged.2⟩,
        merged.1,
        if 0 < merged.2 then 1 else 0,
        merged.2⟩

/-- A fully complete row: no required field missing. -/
def rowComplete : Row :=
  [("Conference Name", Cell.val "DevCon"), ("Start Date", Cell.val "05/15"),
   ("End Date", Cell.val "05/17"), ("Location", Cell.val "Miami"),
   ("Speaker", Cell.val "Vitalik"), ("Attendees", Cell.val "5000"),
   ("Status", Cell.val "Done")]

/-- The standard column set of the 2026 table. -/
def colsAll : List String :=
  ["Conference Name", "Start Date", "End Date", "Location", "Speaker",
   "Attendees", "Status"]

/-- A one-row table with nothing missing: the analyzer yields zero work
items on it. -/
def tComplete : Table :=
  ⟨colsAll, [rowComplete]⟩

/-- Statistics left by some previous cycle (last run at time 0). -/
def statsPrev : RunStats :=
  ⟨some 0, 0, 0⟩

/-- A row complete except for a blank `Status`. -/
def rowNoStatus (n : String) : Row :=
  [("Conference Name", Cell.val n), ("Start Date", Cell.val "05/15"),
   ("End Date", Cell.val "05/17"), ("Location", Cell.val "Miami"),
   ("Speaker", Cell.val "Vitalik"), ("Attendees", Cell.val "5000"),
   ("Status", Cell.val "")]

/-- The C8 scenario table: three rows, the first two missing only
`Status`, the third complete. -/
def tScenario : Table :=
  ⟨colsAll, [rowNoStatus "A", rowNoStatus "B", rowComplete]⟩

/-- An oracle that finds `Status = Confirmed` for every work item. -/
def sfStatus : ConfInfo → Except String SearchOutcome := fun _ =>
  Except.ok (SearchOutcome.found [("Status", "Confirmed")])

/-- Read the `Status` cell of a row. -/
def statusOfRow (r : Row) : Cell :=
  getCellD r "Status"

/-! ### The cycle in Google Sheets storage mode

With `Config.USE_GOOGLE_SHEETS = true` the scheduler uses
`GoogleSheetsProcessor.update_conference_data`
(sheets_processor.py:295-311), which performs the same per-field
dataframe update as the CSV variant (values are string-rendered by
`str(value)`, a no-op here since the model's values are already the
`str()` renderings) and then immediately writes the updated row to the
persisted 2026 worksheet via `_sync_row_to_sheets`
(sheets_processor.py:313-327) — one table write per validated update,
during the merge loop.  The `updates_made > 0` block at
scheduler.py:96-99 then updates only the dashboard
(`update_dashboard_timestamp` and `update_system_status`), not the
conference table. -/

/-- Embedding of the Google Sheets `update_conference_data`: the CSV
per-field update plus the one `_sync_row_to_sheets` write of the row to
the persisted 2026 worksheet. -/
def update_conference_data_sheets (t : Table) (index : Nat)
    (field_updates : List (String × String)) : Table × Nat :=
  (update_conference_data t index field_updates, 1)

/-- One step of the result-processing loop of scheduler.py:79-93 in
Google Sheets mode, accumulating (working table, `updates_made`, row
writes to the persisted 2026 worksheet). -/
def mergeStepSheets (acc : Table × Nat × Nat) (r : ScrapeResult) :
    Table × Nat × Nat :=
  match r.scraped_data with
  | none => acc
  | some m =>
      if m.isEmpty then acc
      else
        let validated := validate_scraped_data m
        if validated.isEmpty then acc
        else
          let upd := update_conference_data_sheets acc.1 r.conference_info.index validated
          (upd.1, acc.2.1 + 1, acc.2.2 + upd.2)

/-- The result-processing loop of scheduler.py:79-93 in Google Sheets
mode. -/
def mergeResultsSheets (table : Table) (results : List ScrapeResult) :
    Table × Nat × Nat :=
  results.foldl mergeStepSheets (table, 0, 0)

/-- Observable outcome of one Google Sheets mode cycle: final
statistics, final working table, number of writes of rows of the
persisted 2026 worksheet (the `_sync_row_to_sheets` calls), number of
`Persisting`-stage dashboard update blocks, and this cycle's
`updates_made`. -/
structure SheetsCycleResult : Type where
  stats : RunStats
  table : Table
  tableWrites : Nat
  dashboardWrites : Nat
  updatesMade : Nat
deriving DecidableEq

/-- Embedding of `ConferenceScheduler.run_scraping_job`
(scheduler.py:43-116) with `Config.USE_GOOGLE_SHEETS = true`: identical
control flow to the CSV-mode embedding, except that every validated
update writes its row to the persisted table during merging, and the
`updates_made > 0` block performs the dashboard update instead of a
table save. -/
def run_scraping_job_sheets (apiOk : Bool) (sf : ConfInfo → Except String SearchOutcome)
    (table : Table) (now : Nat) (stats : RunStats) : SheetsCycleResult :=
  if !apiOk then ⟨stats, table, 0, 0, 0⟩
  else if table.rows.isEmpty then ⟨stats, table, 0, 0, 0⟩
  else
    let incomplete := get_incomplete_conferences table
    if incomplete.isEmpty then ⟨stats, table, 0, 0, 0⟩
    else
      let results := (scrape_batch sf incomplete 3).getD []
      let merged := mergeResultsSheets table results
      ⟨⟨some now, stats.total_conferences_processed + incomplete.length,
          stats.total_updates_made + merged.2.1⟩,
        merged.1,
        merged.2.2,
        if 0 < merged.2.1 then 1 else 0,
        merged.2.1⟩

/-! ### `ConferenceScheduler.run_scheduler` — the recurring loop

Embedding of the `while True` loop of scheduler.py:145-155.  Each
iteration is one tick; what the tick's body does is summarised by a
`TickOutcome`: `ok` (the pending-job check ran, possibly running a whole
cycle, without raising), `err e` (the cycle raised an exception with
message `e` — `run_scraping_job` re-raises at scheduler.py:116, so
scheduled failures land in the `except Exception` arm), or `interrupt`
(`KeyboardInterrupt`, the user stopping the scheduler). -/

inductive TickOutcome : Type where
  | ok : TickOutcome
  | err : String → TickOutcome
  | interrupt : TickOutcome
deriving DecidableEq

/-- What one loop iteration does with a tick outcome
(scheduler.py:145-155): whether the loop keeps running, and how many
seconds it sleeps before the next poll — 60 after a normal poll, 300
(5 minutes) after a caught exception, none after the interrupt `break`. -/
def scheduler_tick_action : TickOutcome → Bool × Nat
  | TickOutcome.ok => (true, 60)
  | TickOutcome.err _ => (true, 300)
  | TickOutcome.interrupt => (false, 0)

/-- Whether the loop is still running after `n` ticks drawn from the
stream `outcomes`. -/
def loopAlive (outcomes : Nat → TickOutcome) : Nat → Bool
  | 0 => true
  | n + 1 => loopAlive outcomes n && (scheduler_tick_action (outcomes n)).1

/-- A tick stream whose every cycle raises. -/
def errStream : Nat → TickOutcome := fun _ =>
  TickOutcome.err "boom"

example : validate_scraped_data
    [("Start Date", " 05/15 "), ("End Date", "May 17th"), ("Location", "  "),
     ("Status", " Confirmed"), ("Venue", "x")] =
    [("Start Date", "05/15"), ("Status", "Confirmed")] := by
  decide

example : pstrip "  a b \t" = "a b" := by decide

example : validate_scraped_data [] = [] := by decide

/-! ### Properties of `pstrip` -/

theorem dropWhile_dropWhile_self {α : Type} (p : α → Bool) (l : List α) :
    (l.dropWhile p).dropWhile p = l.dropWhile p := by
  induction l with
  | nil => rfl
  | cons a l ih =>
      by_cases h : p a
      · rw [List.dropWhile_cons_of_pos h, ih]
      · rw [List.dropWhile_cons_of_neg h, List.dropWhile_cons_of_neg h]

theorem dropWhile_eq_self_of_head {α : Type} (p : α → Bool) (l : List α)
    (h : ∀ x, l.head? = some x → p x = false) : l.dropWhile p = l := by
  cases l with
  | nil => rfl
  | cons a l =>
      have ha : p a = false := h a rfl
      rw [List.dropWhile_cons_of_neg (by simp [ha])]

theorem head?_dropWhile_false {α : Type} (p : α → Bool) (l : List α)
    (x : α) (hx : (l.dropWhile p).head? = some x) : p x = false := by
  have h := List.head?_dropWhile_not p l
  rw [hx] at h
  exact h

theorem dropWhile_head_false_of_fix {α : Type} (p : α → Bool) (a : α)
    (rest : List α) (h : (a :: rest).dropWhile p = a :: rest) : p a = false := by
  apply head?_dropWhile_false p (a :: rest) a
  rw [h]
  rfl

theorem rtrim_split {α : Type} (p : α → Bool) (m : List α) :
    m = (m.reverse.dropWhile p).reverse ++ (m.reverse.takeWhile p).reverse := by
  calc m = m.reverse.reverse := (List.reverse_reverse m).symm
    _ = (m.reverse.takeWhile p ++ m.reverse.dropWhile p).reverse := by
          rw [List.takeWhile_append_dropWhile]
    _ = (m.reverse.dropWhile p).reverse ++ (m.reverse.takeWhile p).reverse :=
          List.reverse_append _ _

theorem dropWhile_rtrim_fix {α : Type} (p : α → Bool) (m : List α)
    (hm : m.dropWhile p = m) :
    ((m.reverse.dropWhile p).reverse).dropWhile p = (m.reverse.dropWhile p).reverse := by
  cases hr : (m.reverse.dropWhile p).reverse with
  | nil => rfl
  | cons a t =>
      have hsplit := rtrim_split p m
      rw [hr] at hsplit
      have hfix : (a :: (t ++ (m.reverse.takeWhile p).reverse)).dropWhile p =
          a :: (t ++ (m.reverse.takeWhile p).reverse) := by
        have := hm
        rw [hsplit] at this
        simpa using this
      have ha : p a = false := dropWhile_head_false_of_fix p a _ hfix
      rw [List.dropWhile_cons_of_neg (by simp [ha])]

theorem stripChars_idem (l : List Char) :
    stripChars (stripChars l) = stripChars l := by
  have hL : (stripChars l).dropWhile isPySpace = stripChars l :=
    dropWhile_rtrim_fix isPySpace (l.dropWhile isPySpace)
      (dropWhile_dropWhile_self isPySpace l)
  show (((stripChars l).dropWhile isPySpace).reverse.dropWhile isPySpace).reverse =
      stripChars l
  rw [hL]
  show (((((l.dropWhile isPySpace).reverse.dropWhile isPySpace).reverse).reverse).dropWhile
      isPySpace).reverse = stripChars l
  rw [List.reverse_reverse, dropWhile_dropWhile_self]
  rfl

theorem pstrip_idem (s : String) : pstrip (pstrip s) = pstrip s := by
  unfold pstrip
  exact congrArg String.mk (stripChars_idem s.data)

/-! ### Properties of `validate_scraped_data` -/

theorem lookupField_nil (k : String) : lookupField [] k = none := rfl

theorem lookupField_cons (k₀ v₀ : String) (rest : FieldMap) (k : String) :
    lookupField ((k₀, v₀) :: rest) k = if k₀ = k then some v₀ else lookupField rest k := rfl

theorem mem_optEntry {k k' v : String} {o : Option String} :
    (k', v) ∈ optEntry k o ↔ k' = k ∧ o = some v := by
  cases o with
  | none => simp [optEntry]
  | some t =>
      simp only [optEntry, List.mem_singleton, Prod.mk.injEq, Option.some.injEq]
      constructor
      · rintro ⟨h1, h2⟩; exact ⟨h1, h2.symm⟩
      · rintro ⟨h1, h2⟩; exact ⟨h1, h2.symm⟩

theorem dateEntryOpt_spec (data : FieldMap) (k t : String)
    (h : dateEntryOpt data k = some t) :
    pstrip t = t ∧ charIn '/' t = true ∧ pyLen t ≤ 5 := by
  unfold dateEntryOpt at h
  cases hl : lookupField data k with
  | none => rw [hl] at h; exact absurd h (by simp)
  | some v =>
      rw [hl] at h
      simp only at h
      by_cases hc : charIn '/' (pstrip v) && decide (pyLen (pstrip v) ≤ 5)
      · rw [if_pos hc] at h
        obtain ⟨h1, h2⟩ := Bool.and_eq_true_iff.mp hc
        cases h
        exact ⟨pstrip_idem v, h1, of_decide_eq_true h2⟩
      · rw [if_neg hc] at h; exact absurd h (by simp)

theorem textEntryOpt_spec (data : FieldMap) (k t : String)
    (h : textEntryOpt data k = some t) :
    pstrip t = t ∧ 0 < pyLen t := by
  unfold textEntryOpt at h
  cases hl : lookupField data k with
  | none => rw [hl] at h; exact absurd h (by simp)
  | some v =>
      rw [hl] at h
      simp only at h
      by_cases hc : 0 < pyLen (pstrip v)
      · rw [if_pos hc] at h
        cases h
        exact ⟨pstrip_idem v, hc⟩
      · rw [if_neg hc] at h; exact absurd h (by simp)

theorem dateEntryOpt_some_lookup (data : FieldMap) (k t : String)
    (h : dateEntryOpt data k = some t) : lookupField data k ≠ none := by
  unfold dateEntryOpt at h
  cases hl : lookupField data k with
  | none => rw [hl] at h; exact absurd h (by simp)
  | some v => simp

theorem textEntryOpt_some_lookup (data : FieldMap) (k t : String)
    (h : textEntryOpt data k = some t) : lookupField data k ≠ none := by
  unfold textEntryOpt at h
  cases hl : lookupField data k with
  | none => rw [hl] at h; exact absurd h (by simp)
  | some v => simp

theorem dateEntryOpt_restrip (m₁ m₂ : FieldMap) (k : String)
    (h : lookupField m₁ k = dateEntryOpt m₂ k) :
    dateEntryOpt m₁ k = dateEntryOpt m₂ k := by
  cases he : dateEntryOpt m₂ k with
  | none =>
      rw [he] at h
      unfold dateEntryOpt
      rw [h]
  | some t =>
      rw [he] at h
      obtain ⟨ht, hsl, hlen⟩ := dateEntryOpt_spec m₂ k t he
      unfold dateEntryOpt
      rw [h]
      show (if (charIn '/' (pstrip t) && decide (pyLen (pstrip t) ≤ 5)) = true
          then some (pstrip t) else none) = some t
      rw [ht]
      simp [hsl, hlen]

theorem textEntryOpt_restrip (m₁ m₂ : FieldMap) (k : String)
    (h : lookupField m₁ k = textEntryOpt m₂ k) :
    textEntryOpt m₁ k = textEntryOpt m₂ k := by
  cases he : textEntryOpt m₂ k with
  | none =>
      rw [he] at h
      unfold textEntryOpt
      rw [h]
  | some t =>
      rw [he] at h
      obtain ⟨ht, hpos⟩ := textEntryOpt_spec m₂ k t he
      unfold textEntryOpt
      rw [h]
      show (if 0 < pyLen (pstrip t) then some (pstrip t) else none) = some t
      rw [ht]
      simp [hpos]

theorem lookup_validate_startDate (data : FieldMap) :
    lookupField (validate_scraped_data data) "Start Date" =
      dateEntryOpt data "Start Date" := by
  unfold validate_scraped_data
  cases dateEntryOpt data "Start Date" <;>
  cases dateEntryOpt data "End Date" <;>
  cases textEntryOpt data "Location" <;>
  cases textEntryOpt data "Speaker" <;>
  cases textEntryOpt data "Attendees" <;>
  cases textEntryOpt data "Status" <;>
  rfl

theorem lookup_validate_endDate (data : FieldMap) :
    lookupField (validate_scraped_data data) "End Date" =
      dateEntryOpt data "End Date" := by
  unfold validate_scraped_data
  cases dateEntryOpt data "Start Date" <;>
  cases dateEntryOpt data "End Date" <;>
  cases textEntryOpt data "Location" <;>
  cases textEntryOpt data "Speaker" <;>
  cases textEntryOpt data "Attendees" <;>
  cases textEntryOpt data "Status" <;>
  rfl

theorem lookup_validate_location (data : FieldMap) :
    lookupField (validate_scraped_data data) "Location" =
      textEntryOpt data "Location" := by
  unfold validate_scraped_data
  cases dateEntryOpt data "Start Date" <;>
  cases dateEntryOpt data "End Date" <;>
  cases textEntryOpt data "Location" <;>
  cases textEntryOpt data "Speaker" <;>
  cases textEntryOpt data "Attendees" <;>
  cases textEntryOpt data "Status" <;>
  rfl

theorem lookup_validate_speaker (data : FieldMap) :
    lookupField (validate_scraped_data data) "Speaker" =
      textEntryOpt data "Speaker" := by
  unfold validate_scraped_data
  cases dateEntryOpt data "Start Date" <;>
  cases dateEntryOpt data "End Date" <;>
  cases textEntryOpt data "Location" <;>
  cases textEntryOpt data "Speaker" <;>
  cases textEntryOpt data "Attendees" <;>
  cases textEntryOpt data "Status" <;>
  rfl

theorem lookup_validate_attendees (data : FieldMap) :
    lookupField (validate_scraped_data data) "Attendees" =
      textEntryOpt data "Attendees" := by
  unfold validate_scraped_data
  cases dateEntryOpt data "Start Date" <;>
  cases dateEntryOpt data "End Date" <;>
  cases textEntryOpt data "Location" <;>
  cases textEntryOpt data "Speaker" <;>
  cases textEntryOpt data "Attendees" <;>
  cases textEntryOpt data "Status" <;>
  rfl

theorem lookup_validate_status (data : FieldMap) :
    lookupField (validate_scraped_data data) "Status" =
      textEntryOpt data "Status" := by
  unfold validate_scraped_data
  cases dateEntryOpt data "Start Date" <;>
  cases dateEntryOpt data "End Date" <;>
  cases textEntryOpt data "Location" <;>
  cases textEntryOpt data "Speaker" <;>
  cases textEntryOpt data "Attendees" <;>
  cases textEntryOpt data "Status" <;>
  rfl

theorem validate_expand (m : FieldMap) :
    validate_scraped_data m =
      optEntry "Start Date" (dateEntryOpt m "Start Date") ++
      optEntry "End Date" (dateEntryOpt m "End Date") ++
      optEntry "Location" (textEntryOpt m "Location") ++
      optEntry "Speaker" (textEntryOpt m "Speaker") ++
      optEntry "Attendees" (textEntryOpt m "Attendees") ++
      optEntry "Status" (textEntryOpt m "Status") := rfl

theorem validate_scraped_data_idem (data : FieldMap) :
    validate_scraped_data (validate_scraped_data data) = validate_scraped_data data := by
  rw [validate_expand (validate_scraped_data data),
      dateEntryOpt_restrip _ data _ (lookup_validate_startDate data),
      dateEntryOpt_restrip _ data _ (lookup_validate_endDate data),
      textEntryOpt_restrip _ data _ (lookup_validate_location data),
      textEntryOpt_restrip _ data _ (lookup_validate_speaker data),
      textEntryOpt_restrip _ data _ (lookup_validate_attendees data),
      textEntryOpt_restrip _ data _ (lookup_validate_status data)]
  exact (validate_expand data).symm

theorem mem_validate_cases {data : FieldMap} {k v : String}
    (h : (k, v) ∈ validate_scraped_data data) :
    (k = "Start Date" ∧ dateEntryOpt data "Start Date" = some v) ∨
    (k = "End Date" ∧ dateEntryOpt data "End Date" = some v) ∨
    (k = "Location" ∧ textEntryOpt data "Location" = some v) ∨
    (k = "Speaker" ∧ textEntryOpt data "Speaker" = some v) ∨
    (k = "Attendees" ∧ textEntryOpt data "Attendees" = some v) ∨
    (k = "Status" ∧ textEntryOpt data "Status" = some v) := by
  unfold validate_scraped_data at h
  simp only [List.mem_append, mem_optEntry] at h
  tauto

/-- C3: every `Start Date` or `End Date` value present in the output of
`validate_scraped_data` contains a `/` character and has length at most 5;
the value stored is its own trimmed form, so the bound also holds after
trimming. A value violating the rule is never in the output (this is the
contrapositive of the statement proved here). -/
theorem c3_date_fields_shape (data : FieldMap) (k v : String)
    (hk : k = "Start Date" ∨ k = "End Date")
    (hmem : (k, v) ∈ validate_scraped_data data) :
    charIn '/' v = true ∧ pyLen v ≤ 5 ∧ pstrip v = v := by
  rcases mem_validate_cases hmem with h | h | h | h | h | h <;>
    obtain ⟨hkey, hval⟩ := h
  · obtain ⟨ht, hsl, hlen⟩ := dateEntryOpt_spec data _ v hval
    exact ⟨hsl, hlen, ht⟩
  · obtain ⟨ht, hsl, hlen⟩ := dateEntryOpt_spec data _ v hval
    exact ⟨hsl, hlen, ht⟩
  · rcases hk with hk | hk <;> rw [hkey] at hk <;> exact absurd hk (by decide)
  · rcases hk with hk | hk <;> rw [hkey] at hk <;> exact absurd hk (by decide)
  · rcases hk with hk | hk <;> rw [hkey] at hk <;> exact absurd hk (by decide)
  · rcases hk with hk | hk <;> rw [hkey] at hk <;> exact absurd hk (by decide)

/-- Witness for C3 at a concrete input: the validator keeps
`Start Date = "05/15"`, and the theorem yields the claimed shape facts. -/
theorem c3_witness :
    charIn '/' "05/15" = true ∧ pyLen "05/15" ≤ 5 ∧ pstrip "05/15" = "05/15" :=
  c3_date_fields_shape [("Start Date", " 05/15 ")] "Start Date" "05/15"
    (Or.inl rfl) (by decide)

/-- C4: `validate_scraped_data` is idempotent, and its output's key set is
a subset of the input's key set — it never adds a field that the input
dict does not contain. -/
theorem c4_validate_idempotent_and_key_subset (data : FieldMap) :
    validate_scraped_data (validate_scraped_data data) = validate_scraped_data data ∧
    ∀ k v : String, (k, v) ∈ validate_scraped_data data → lookupField data k ≠ none := by
  refine ⟨validate_scraped_data_idem data, ?_⟩
  intro k v hmem
  rcases mem_validate_cases hmem with h | h | h | h | h | h <;>
    obtain ⟨hkey, hval⟩ := h <;> rw [hkey]
  · exact dateEntryOpt_some_lookup data _ v hval
  · exact dateEntryOpt_some_lookup data _ v hval
  · exact textEntryOpt_some_lookup data _ v hval
  · exact textEntryOpt_some_lookup data _ v hval
  · exact textEntryOpt_some_lookup data _ v hval
  · exact textEntryOpt_some_lookup data _ v hval

/-- Witness for C4 at a concrete input: idempotence on a map with one
passing and one failing field, and the key-subset consequence there. -/
theorem c4_witness :
    validate_scraped_data (validate_scraped_data [("Status", " ok "), ("End Date", "TBD")]) =
      validate_scraped_data [("Status", " ok "), ("End Date", "TBD")] ∧
    lookupField [("Status", " ok "), ("End Date", "TBD")] "Status" ≠ none :=
  ⟨(c4_validate_idempotent_and_key_subset [("Status", " ok "), ("End Date", "TBD")]).1,
   (c4_validate_idempotent_and_key_subset [("Status", " ok "), ("End Date", "TBD")]).2
     "Status" "ok" (by decide)⟩

/-- C10: the key set of the output of `validate_scraped_data` is a subset
of the six required field names in `Config.FIELDS_TO_SCRAPE`; any other
key returned by the oracle is dropped. -/
theorem c10_validate_keys_in_required (data : FieldMap) (k v : String)
    (hmem : (k, v) ∈ validate_scraped_data data) : k ∈ FIELDS_TO_SCRAPE := by
  rcases mem_validate_cases hmem with h | h | h | h | h | h <;>
    obtain ⟨hkey, _⟩ := h <;> rw [hkey] <;> decide

/-- Witness for C10 at a concrete input: the kept key `Status` is among
the six required field names. -/
theorem c10_witness : "Status" ∈ FIELDS_TO_SCRAPE :=
  c10_validate_keys_in_required [("Status", "Confirmed"), ("Venue", "x")]
    "Status" "Confirmed" (by decide)

example : search_conference_info ⟨" FALSE ", Except.error ()⟩ =
    SearchOutcome.notFound := by decide

example : search_conference_info ⟨"\x7b\x7d", Except.ok []⟩ =
    SearchOutcome.notFound := by decide

example : search_conference_info
    ⟨"\x7b\x7bjson\x7d\x7d", Except.ok [("Status", JVal.jval "Confirmed"), ("Speaker", JVal.jnull)]⟩ =
    SearchOutcome.found [("Status", "Confirmed")] := by decide

/-- C5: for every oracle response, a text equal to the case-insensitive
literal `false` (after stripping) yields `notFound`; otherwise a parsed
JSON object with null and blank-after-trim values dropped yields
`notFound` exactly when nothing remains, and `found` of the filtered
mapping otherwise; malformed JSON yields `errorParse`, an outcome
distinct from `notFound`, which is returned to the caller as the `False`
value rather than raised. -/
theorem c5_response_classification (resp : OracleResponse) :
    (pyLower (pstrip resp.raw) = "false" →
      search_conference_info resp = SearchOutcome.notFound) ∧
    (∀ fields, resp.parsed = Except.ok fields →
      pyLower (pstrip resp.raw) ≠ "false" →
      search_conference_info resp =
        (if filterResponse fields = [] then SearchOutcome.notFound
         else SearchOutcome.found (filterResponse fields))) ∧
    (∀ e, resp.parsed = Except.error e →
      pyLower (pstrip resp.raw) ≠ "false" →
      search_conference_info resp = SearchOutcome.errorParse ∧
      searchCallerValue (search_conference_info resp) = none) ∧
    SearchOutcome.errorParse ≠ SearchOutcome.notFound := by
  refine ⟨?_, ?_, ?_, by decide⟩
  · intro hfalse
    unfold search_conference_info
    rw [if_pos hfalse]
  · intro fields hok hne
    unfold search_conference_info
    rw [if_neg hne, hok]
    simp only [List.isEmpty_iff]
  · intro e herr hne
    unfold search_conference_info
    rw [if_neg hne, herr]
    exact ⟨rfl, rfl⟩

/-- Witness for C5 at concrete responses: the `false` literal, a
malformed-JSON response, and a parsed response whose values are all
dropped. -/
theorem c5_witness :
    search_conference_info ⟨"False", Except.error ()⟩ = SearchOutcome.notFound ∧
    (search_conference_info ⟨"\x7bbad", Except.error ()⟩ = SearchOutcome.errorParse ∧
      searchCallerValue (search_conference_info ⟨"\x7bbad", Except.error ()⟩) = none) ∧
    search_conference_info ⟨"\x7b\x7b\x7d\x7d", Except.ok [("Status", JVal.jnull)]⟩ =
      SearchOutcome.notFound :=
  ⟨(c5_response_classification ⟨"False", Except.error ()⟩).1 (by decide),
   (c5_response_classification ⟨"\x7bbad", Except.error ()⟩).2.2.1 () rfl (by decide),
   by
     have h := (c5_response_classification
       ⟨"\x7b\x7b\x7d\x7d", Except.ok [("Status", JVal.jnull)]⟩).2.1
       [("Status", JVal.jnull)] rfl (by decide)
     rw [h]
     decide⟩

theorem giGo_enumFrom (cols : List String) (n : Nat) (rows : List Row) :
    giGo cols n rows =
      ((rows.enumFrom n).filter fun p =>
          !(analyze_missing FIELDS_TO_SCRAPE cols p.2).isEmpty).map
        fun p => mkConfInfo p.1 p.2 (analyze_missing FIELDS_TO_SCRAPE cols p.2) := by
  induction rows generalizing n with
  | nil => rfl
  | cons row rest ih =>
      show (if (analyze_missing FIELDS_TO_SCRAPE cols row).isEmpty then giGo cols (n + 1) rest
          else mkConfInfo n row (analyze_missing FIELDS_TO_SCRAPE cols row) ::
            giGo cols (n + 1) rest) = _
      rw [List.enumFrom_cons]
      cases hm : (analyze_missing FIELDS_TO_SCRAPE cols row).isEmpty with
      | true =>
          rw [if_pos rfl, List.filter_cons_of_neg (by simp [hm]), ih]
      | false =>
          rw [if_neg (by simp [hm]), List.filter_cons_of_pos (by simp [hm]), List.map_cons, ih]

/-- C1 (amended): `get_incomplete_conferences` returns exactly the rows
for which at least one required field that is among the table's columns
is NaN or blank after trimming, as work items in original table row
order; a row whose name is blank is NOT excluded by the analyzer (blank
names are filtered earlier, at table load). -/
theorem c1_analyzer_exact_rows_in_order (t : Table) :
    get_incomplete_conferences t =
      ((t.rows.enum.filter fun p =>
          !(analyze_missing FIELDS_TO_SCRAPE t.cols p.2).isEmpty).map
        fun p => mkConfInfo p.1 p.2 (analyze_missing FIELDS_TO_SCRAPE t.cols p.2)) :=
  giGo_enumFrom t.cols 0 t.rows

/-- Counterexample to C1 as stated: on `tBlankName`, whose only row has a
blank `Conference Name` and a blank required `Status` field, the analyzer
returns that row instead of excluding it — the returned work item's name
is the blank string. -/
theorem c1_counterexample_blank_name_not_excluded :
    get_incomplete_conferences tBlankName = [mkConfInfo 0 rowBlankName ["Status"]] ∧
    (mkConfInfo 0 rowBlankName ["Status"]).conference_name = Cell.val "" := by
  decide

theorem chunkedAux_join_map {α β : Type} (g : α → β) (bs : Nat) (fuel : Nat)
    (l : List α) (hbs : bs ≠ 0) (hfuel : l.length ≤ fuel) :
    ((chunkedAux bs fuel l).map fun batch => batch.map g).flatten = l.map g := by
  induction fuel generalizing l with
  | zero =>
      cases l with
      | nil => rfl
      | cons a rest => exact absurd hfuel (by simp)
  | succ fuel ih =>
      cases l with
      | nil => rfl
      | cons a rest =>
          show ((a :: rest).take bs).map g ++
              ((chunkedAux bs fuel ((a :: rest).drop bs)).map
                fun batch => batch.map g).flatten = (a :: rest).map g
          rw [ih ((a :: rest).drop bs)]
          · rw [← List.map_append, List.take_append_drop]
          · have h1 : ((a :: rest).drop bs).length = (a :: rest).length - bs := by
              rw [List.length_drop]
            have h2 : (a :: rest).length - bs ≤ (a :: rest).length - 1 :=
              Nat.sub_le_sub_left (Nat.one_le_iff_ne_zero.mpr hbs) _
            have h3 : (a :: rest).length - 1 = rest.length := by simp
            have h4 : rest.length ≤ fuel := Nat.le_of_succ_le_succ (by simpa using hfuel)
            omega

/-- C2 (amended): for every item handler, every input list and every
POSITIVE batch size, `scrape_batch` returns a result list with exactly
one result per input item in input order, and a per-item raised error is
recorded with the `False` marker and the error message while processing
continues; with batch size 0 the underlying `range` raises `ValueError`
and no result list is produced. -/
theorem c2_batch_one_result_per_item_in_order
    (sf : ConfInfo → Except String SearchOutcome)
    (conferences : List ConfInfo) (batch_size : Nat) (hbs : 0 < batch_size) :
    scrape_batch sf conferences batch_size =
      some (conferences.map (processItem sf)) ∧
    (∀ rs, scrape_batch sf conferences batch_size = some rs →
      rs.length = conferences.length ∧
      ∀ (i : Nat) (c : ConfInfo),
        conferences[i]? = some c → rs[i]? = some (processItem sf c)) ∧
    (∀ c e, sf c = Except.error e → processItem sf c = ⟨c, none, some e⟩) := by
  have hmain : scrape_batch sf conferences batch_size =
      some (conferences.map (processItem sf)) := by
    unfold scrape_batch
    rw [if_neg (Nat.pos_iff_ne_zero.mp hbs),
        chunkedAux_join_map (processItem sf) batch_size conferences.length conferences
          (Nat.pos_iff_ne_zero.mp hbs) (Nat.le_refl _)]
  refine ⟨hmain, ?_, ?_⟩
  · intro rs hrs
    rw [hmain] at hrs
    cases hrs
    constructor
    · exact List.length_map _ _
    · intro i c hc
      rw [List.getElem?_map, hc]
      rfl
  · intro c e he
    unfold processItem
    rw [he]

/-- Witness for C2 at a concrete input: two items with batch size 1; the
first succeeds, the second raises and is recorded with the failure
marker while the batch still yields both results in order. -/
theorem c2_witness :
    scrape_batch sfSample [sampleConf "A", sampleConf "B"] 1 =
      some [⟨sampleConf "A", some [("Status", "Confirmed")], none⟩,
            ⟨sampleConf "B", none, some "boom"⟩] := by
  rw [(c2_batch_one_result_per_item_in_order sfSample
    [sampleConf "A", sampleConf "B"] 1 (by decide)).1]
  decide

/-- Counterexample to C2 as stated: with batch size 0 and a one-item
input, Python's `range(0, 1, 0)` raises `ValueError`, so `scrape_batch`
produces no result list at all — not a list with one result per item. -/
theorem c2_counterexample_batch_size_zero :
    scrape_batch sfSample [sampleConf "A"] 0 = none := rfl

/-- C6: a cycle whose connectivity check fails changes no `RunStatistics`
field (`last_run`, `total_conferences_processed`, `total_updates_made`
all keep their previous values) and performs no store write. -/
theorem c6_failed_connectivity_changes_nothing
    (sf : ConfInfo → Except String SearchOutcome) (table : Table) (now : Nat)
    (stats : RunStats) :
    (run_scraping_job false sf table now stats).stats = stats ∧
    (run_scraping_job false sf table now stats).table = table ∧
    (run_scraping_job false sf table now stats).saveWrites = 0 := by
  exact ⟨rfl, rfl, rfl⟩

/-- C7 (amended): a cycle with zero work items leaves ALL `RunStatistics`
fields unchanged — including `last_run`, which the code does NOT update
because it returns from scheduler.py:71 before reaching the statistics
block at scheduler.py:104-107 — and performs no store write. -/
theorem c7_no_op_cycle_leaves_stats_untouched
    (sf : ConfInfo → Except String SearchOutcome) (table : Table) (now : Nat)
    (stats : RunStats) (h : get_incomplete_conferences table = []) :
    run_scraping_job true sf table now stats = ⟨stats, table, 0, 0⟩ := by
  unfold run_scraping_job
  cases htr : table.rows.isEmpty with
  | true => simp
  | false => simp [htr, h]

/-- Witness for C7 at a concrete input: on the complete one-row table the
cycle is a no-op. -/
theorem c7_witness :
    run_scraping_job true sfSample tComplete 7 statsPrev =
      ⟨statsPrev, tComplete, 0, 0⟩ :=
  c7_no_op_cycle_leaves_stats_untouched sfSample tComplete 7 statsPrev (by decide)

/-- Counterexample to C7 as stated: the claim says a zero-work-item cycle
updates `last_run_timestamp` to the current time; on `tComplete` with
previous `last_run = some 0` and current time 5, the cycle leaves
`last_run = some 0`, not `some 5`. -/
theorem c7_counterexample_no_timestamp_update :
    (run_scraping_job true sfSample tComplete 5 statsPrev).stats.last_run = some 0 ∧
    (run_scraping_job true sfSample tComplete 5 statsPrev).stats.last_run ≠ some 5 := by
  decide

theorem mergeStepSheets_writes_eq_updates (results : List ScrapeResult) :
    ∀ acc : Table × Nat × Nat, acc.2.1 = acc.2.2 →
      (results.foldl mergeStepSheets acc).2.1 =
        (results.foldl mergeStepSheets acc).2.2 := by
  induction results with
  | nil => exact fun acc h => h
  | cons r rest ih =>
      intro acc h
      apply ih
      unfold mergeStepSheets
      cases hsd : r.scraped_data with
      | none => exact h
      | some m =>
          cases hme : m.isEmpty with
          | true => simpa [hme] using h
          | false =>
              cases hve : (validate_scraped_data m).isEmpty with
              | true => simpa [hme, hve] using h
              | false => simp [hme, hve, update_conference_data_sheets, h]

/-- Counterexample to C8 as stated: in Google Sheets storage mode — the
backend the claim's sources cite — the spec's scenario (three rows, two
missing only `Status`, oracle returns `Status = Confirmed` for both)
makes `updates_made = 2` but writes rows of the persisted conference
table TWICE (one `_sync_row_to_sheets` per validated update), not
exactly once. -/
theorem c8_counterexample_sheets_two_table_writes :
    (run_scraping_job_sheets true sfStatus tScenario 9 ⟨none, 0, 0⟩).updatesMade = 2 ∧
    (run_scraping_job_sheets true sfStatus tScenario 9 ⟨none, 0, 0⟩).tableWrites = 2 ∧
    (run_scraping_job_sheets true sfStatus tScenario 9 ⟨none, 0, 0⟩).tableWrites ≠ 1 := by
  decide

/-- C8 (amended): in every cycle, the `Persisting`-stage store write —
`save_csv` in CSV mode, the dashboard update block in Google Sheets mode
— happens iff `updates_made > 0`, and then exactly once per cycle.  In
CSV mode this is the only store write, so the scenario with two
validated rows yields `updates_made = 2` and a single store write; in
Google Sheets mode each validated update additionally writes its row to
the persisted conference table during merging, so the number of
row-level table writes equals `updates_made` (two in that scenario). -/
theorem c8_persist_write_iff_updates_per_backend :
    (∀ (apiOk : Bool) (sf : ConfInfo → Except String SearchOutcome) (table : Table)
        (now : Nat) (stats : RunStats),
      (run_scraping_job apiOk sf table now stats).saveWrites =
        if 0 < (run_scraping_job apiOk sf table now stats).updatesMade then 1 else 0) ∧
    (∀ (apiOk : Bool) (sf : ConfInfo → Except String SearchOutcome) (table : Table)
        (now : Nat) (stats : RunStats),
      (run_scraping_job_sheets apiOk sf table now stats).dashboardWrites =
        if 0 < (run_scraping_job_sheets apiOk sf table now stats).updatesMade then 1
        else 0) ∧
    (∀ (apiOk : Bool) (sf : ConfInfo → Except String SearchOutcome) (table : Table)
        (now : Nat) (stats : RunStats),
      (run_scraping_job_sheets apiOk sf table now stats).tableWrites =
        (run_scraping_job_sheets apiOk sf table now stats).updatesMade) ∧
    (run_scraping_job true sfStatus tScenario 9 ⟨none, 0, 0⟩).updatesMade = 2 ∧
    (run_scraping_job true sfStatus tScenario 9 ⟨none, 0, 0⟩).saveWrites = 1 ∧
    (run_scraping_job true sfStatus tScenario 9 ⟨none, 0, 0⟩).table.rows.map statusOfRow =
      [Cell.val "Confirmed", Cell.val "Confirmed", Cell.val "Done"] := by
  refine ⟨?_, ?_, ?_, by decide, by decide, by decide⟩
  · intro apiOk sf table now stats
    unfold run_scraping_job
    cases apiOk with
    | false => rfl
    | true =>
        cases htr : table.rows.isEmpty with
        | true => simp
        | false =>
            cases hinc : (get_incomplete_conferences table).isEmpty with
            | true => simp [htr, hinc]
            | false => simp [htr, hinc]
  · intro apiOk sf table now stats
    unfold run_scraping_job_sheets
    cases apiOk with
    | false => rfl
    | true =>
        cases htr : table.rows.isEmpty with
        | true => simp
        | false =>
            cases hinc : (get_incomplete_conferences table).isEmpty with
            | true => simp [htr, hinc]
            | false => simp [htr, hinc]
  · intro apiOk sf table now stats
    unfold run_scraping_job_sheets
    cases apiOk with
    | false => rfl
    | true =>
        cases htr : table.rows.isEmpty with
        | true => simp
        | false =>
            cases hinc : (get_incomplete_conferences table).isEmpty with
            | true => simp [htr, hinc]
            | false =>
                simp only [htr, hinc, Bool.not_true, Bool.false_eq_true, if_false,
                  if_true]
                exact (mergeStepSheets_writes_eq_updates _ _ rfl).symm

/-- C9: exceptions raised by cycles inside the recurring loop never
terminate it — after any number of ticks none of which is a
`KeyboardInterrupt`, the loop is still alive, and a tick whose cycle
raised makes the loop wait 300 seconds (5 minutes) and resume rather
than stop. -/
theorem c9_loop_survives_cycle_errors (outcomes : Nat → TickOutcome) (n : Nat)
    (h : ∀ i, i < n → outcomes i ≠ TickOutcome.interrupt) :
    loopAlive outcomes n = true ∧
    ∀ e, scheduler_tick_action (TickOutcome.err e) = (true, 300) := by
  refine ⟨?_, fun e => rfl⟩
  induction n with
  | zero => rfl
  | succ n ih =>
      show (loopAlive outcomes n && (scheduler_tick_action (outcomes n)).1) = true
      rw [ih (fun i hi => h i (Nat.lt_succ_of_lt hi))]
      cases ho : outcomes n with
      | ok => rfl
      | err e => rfl
      | interrupt => exact absurd ho (h n (Nat.lt_succ_self n))

/-- Witness for C9 at a concrete input: a stream of ticks that all raise
keeps the loop alive after three ticks, each waiting 5 minutes. -/
theorem c9_witness :
    loopAlive errStream 3 = true ∧
    scheduler_tick_action (TickOutcome.err "boom") = (true, 300) :=
  ⟨(c9_loop_survives_cycle_errors errStream 3
      (fun _ _ h => TickOutcome.noConfusion h)).1,
   (c9_loop_survives_cycle_errors errStream 3
      (fun _ _ h => TickOutcome.noConfusion h)).2 "boom"⟩
